import Mathlib

/-!
Verification of the cargo command pipeline and the registry HTTP client.

The development shallowly embeds the two source files:
  - src/registry/lib.rs  — the registry client: response handling (function
    handle), the owner/yank/unyank/publish operations, and the publish
    upload framing;
  - src/cargo/lib.rs     — the command pipeline: flags_from_args,
    json_from_stdin, process_executed, handle_error, handle_cause.

External collaborators are modelled as inputs: the HTTP transport is a
value of type Except Nat Response (transport error code, or a response),
the docopt argument parser is a value of type Except DocoptError α, and
standard input is an Option String (none when reading failed or the data
was not UTF-8).

The serialize::json library used by both files is embedded as a JSON
value type together with a parser (json::from_str) and the two decoders
the registry client instantiates (struct R { ok : bool } and struct
ApiErrorList { errors : Vec of struct ApiError { detail : String } }).
-/

/-! ### JSON values (serialize::json::Json) -/

/-- JSON values.  Numbers keep their source lexeme: no claim depends on
numeric values, only on the shape of the parsed document. -/
inductive Json where
  | null
  | bool (b : Bool)
  | num (lexeme : String)
  | str (s : String)
  | arr (elems : List Json)
  | obj (fields : List (String × Json))

/-- Skip JSON whitespace. -/
def skipWs : List Char → List Char
  | [] => []
  | c :: cs => if c = ' ' ∨ c = '\t' ∨ c = '\n' ∨ c = '\r' then skipWs cs else c :: cs

/-- Value of one hexadecimal digit. -/
def hexVal (c : Char) : Option Nat :=
  if '0' ≤ c ∧ c ≤ '9' then some (c.toNat - '0'.toNat)
  else if 'a' ≤ c ∧ c ≤ 'f' then some (c.toNat - 'a'.toNat + 10)
  else if 'A' ≤ c ∧ c ≤ 'F' then some (c.toNat - 'A'.toNat + 10)
  else none

/-- Parse the remainder of a JSON string literal (the opening quote is
already consumed): returns the decoded characters and the input after the
closing quote.  Handles the simple escapes and \uXXXX, with surrogate
pairs combined and lone surrogates rejected.  Fueled: every step consumes
at least one character, so fuel equal to the character count suffices. -/
def parseStrCharsLoop : Nat → List Char → Option (List Char × List Char)
  | _, [] => none
  | 0, _ :: _ => none
  | fuel + 1, l =>
    match l with
    | [] => none
    | '"' :: cs => some ([], cs)
    | '\\' :: 'u' :: h1 :: h2 :: h3 :: h4 :: cs3 =>
      match hexVal h1, hexVal h2, hexVal h3, hexVal h4 with
      | some n1, some n2, some n3, some n4 =>
        let n := n1 * 4096 + n2 * 256 + n3 * 16 + n4
        if 0xD800 ≤ n ∧ n < 0xDC00 then
          match cs3 with
          | '\\' :: 'u' :: g1 :: g2 :: g3 :: g4 :: cs4 =>
            match hexVal g1, hexVal g2, hexVal g3, hexVal g4 with
            | some m1, some m2, some m3, some m4 =>
              let m := m1 * 4096 + m2 * 256 + m3 * 16 + m4
              if 0xDC00 ≤ m ∧ m < 0xE000 then
                (parseStrCharsLoop fuel cs4).map (fun p =>
                  (Char.ofNat (0x10000 + (n - 0xD800) * 1024 + (m - 0xDC00)) :: p.1, p.2))
              else none
            | _, _, _, _ => none
          | _ => none
        else if 0xDC00 ≤ n ∧ n < 0xE000 then none
        else (parseStrCharsLoop fuel cs3).map (fun p => (Char.ofNat n :: p.1, p.2))
      | _, _, _, _ => none
    | '\\' :: e :: cs2 =>
      match
        (if e = '"' then some '"'
         else if e = '\\' then some '\\'
         else if e = '/' then some '/'
         else if e = 'b' then some (Char.ofNat 8)
         else if e = 'f' then some (Char.ofNat 12)
         else if e = 'n' then some '\n'
         else if e = 'r' then some '\r'
         else if e = 't' then some '\t'
         else none) with
      | some d => (parseStrCharsLoop fuel cs2).map (fun p => (d :: p.1, p.2))
      | none => none
    | c :: cs => (parseStrCharsLoop fuel cs).map (fun p => (c :: p.1, p.2))

/-- String-literal body parser with its fuel instantiated. -/
def parseStrChars (l : List Char) : Option (List Char × List Char) :=
  parseStrCharsLoop l.length l

/-- Take a maximal run of decimal digits. -/
def takeDigits : List Char → (List Char × List Char)
  | [] => ([], [])
  | c :: cs =>
    if c.isDigit then
      let p := takeDigits cs
      (c :: p.1, p.2)
    else ([], c :: cs)

/-- Integer part of a number: a lone 0, or a nonzero digit and a run. -/
def parseIntPart : List Char → Option (List Char × List Char)
  | [] => none
  | c :: cs =>
    if c = '0' then some ([c], cs)
    else if c.isDigit then
      let p := takeDigits cs
      some (c :: p.1, p.2)
    else none

/-- Optional fraction part. -/
def parseFracPart : List Char → Option (List Char × List Char)
  | '.' :: cs =>
    match takeDigits cs with
    | ([], _) => none
    | (d, r) => some ('.' :: d, r)
  | l => some ([], l)

/-- Optional exponent part. -/
def parseExpPart : List Char → Option (List Char × List Char)
  | [] => some ([], [])
  | c :: cs =>
    if c = 'e' ∨ c = 'E' then
      let sr : List Char × List Char :=
        match cs with
        | s :: r => if s = '+' ∨ s = '-' then ([s], r) else ([], s :: r)
        | [] => ([], [])
      match takeDigits sr.2 with
      | ([], _) => none
      | (d, r) => some (c :: (sr.1 ++ d), r)
    else some ([], c :: cs)

/-- Parse a number lexeme. -/
def parseNumLexeme (l : List Char) : Option (List Char × List Char) := do
  let nr : List Char × List Char :=
    match l with
    | '-' :: r => (['-'], r)
    | _ => ([], l)
  let (ip, l2) ← parseIntPart nr.2
  let (fp, l3) ← parseFracPart l2
  let (ep, l4) ← parseExpPart l3
  some (nr.1 ++ ip ++ fp ++ ep, l4)

/-- Loop over the elements of a non-empty JSON array, up to the closing
bracket.  The value parser is passed in; the loop fuel bounds the number
of elements. -/
def parseElemsLoop (pv : List Char → Option (Json × List Char)) :
    Nat → List Char → Option (List Json × List Char)
  | 0, _ => none
  | fuel + 1, l => do
    let (v, rest) ← pv l
    match skipWs rest with
    | ',' :: rest2 => (parseElemsLoop pv fuel rest2).map (fun p => (v :: p.1, p.2))
    | ']' :: rest2 => some ([v], rest2)
    | _ => none

/-- Loop over the members of a non-empty JSON object, up to the closing
brace.  The value parser is passed in; the loop fuel bounds the number of
members. -/
def parseMembersLoop (pv : List Char → Option (Json × List Char)) :
    Nat → List Char → Option (List (String × Json) × List Char)
  | 0, _ => none
  | fuel + 1, l =>
    match skipWs l with
    | '"' :: rest => do
      let (k, rest2) ← parseStrChars rest
      match skipWs rest2 with
      | ':' :: rest3 => do
        let (v, rest4) ← pv rest3
        match skipWs rest4 with
        | ',' :: rest5 =>
          (parseMembersLoop pv fuel rest5).map (fun p => ((String.mk k, v) :: p.1, p.2))
        | '}' :: rest5 => some ([(String.mk k, v)], rest5)
        | _ => none
      | _ => none
    | _ => none

/-- Parse one JSON value.  The fuel bounds the nesting depth of arrays and
objects; each level of nesting consumes at least one character, so fuel
equal to the character count suffices. -/
def parseValue : Nat → List Char → Option (Json × List Char)
  | 0, _ => none
  | fuel + 1, l =>
    match skipWs l with
    | 'n' :: 'u' :: 'l' :: 'l' :: rest => some (.null, rest)
    | 't' :: 'r' :: 'u' :: 'e' :: rest => some (.bool true, rest)
    | 'f' :: 'a' :: 'l' :: 's' :: 'e' :: rest => some (.bool false, rest)
    | '"' :: rest => (parseStrChars rest).map (fun p => (.str (String.mk p.1), p.2))
    | '[' :: rest =>
      match skipWs rest with
      | ']' :: rest2 => some (.arr [], rest2)
      | rest2 => (parseElemsLoop (parseValue fuel) (rest2.length + 1) rest2).map
          (fun p => (.arr p.1, p.2))
    | '{' :: rest =>
      match skipWs rest with
      | '}' :: rest2 => some (.obj [], rest2)
      | rest2 => (parseMembersLoop (parseValue fuel) (rest2.length + 1) rest2).map
          (fun p => (.obj p.1, p.2))
    | l2 => (parseNumLexeme l2).map (fun p => (.num (String.mk p.1), p.2))

/-- json::from_str: parse a complete JSON document; trailing content other
than whitespace is an error. -/
def parseJson (s : String) : Option Json :=
  match parseValue (s.data.length + 1) s.data with
  | some (j, rest) => if skipWs rest = [] then some j else none
  | none => none

/-! ### UTF-8 (String::from_utf8 and the byte view of a Rust String) -/

/-- UTF-8 encoding of one Unicode scalar value. -/
def utf8EncodeScalar (c : Nat) : List Nat :=
  if c < 0x80 then [c]
  else if c < 0x800 then [0xC0 + c / 64, 0x80 + c % 64]
  else if c < 0x10000 then [0xE0 + c / 4096, 0x80 + c / 64 % 64, 0x80 + c % 64]
  else [0xF0 + c / 262144, 0x80 + c / 4096 % 64, 0x80 + c / 64 % 64, 0x80 + c % 64]

/-- The UTF-8 bytes of a string (the byte view Rust code takes with
as_bytes / len). -/
def strBytes (s : String) : List Nat :=
  (s.data.map (fun c => utf8EncodeScalar c.toNat)).flatten

/-- Decode one UTF-8 sequence: strict validation as in String::from_utf8
(continuation bytes checked, overlong forms, surrogates and values above
U+10FFFF rejected). -/
def utf8DecodeOne : List Nat → Option (Nat × List Nat)
  | [] => none
  | b0 :: rest =>
    if b0 < 0x80 then some (b0, rest)
    else if b0 < 0xC2 then none
    else if b0 < 0xE0 then
      match rest with
      | b1 :: rest1 =>
        if 0x80 ≤ b1 ∧ b1 < 0xC0 then some ((b0 - 0xC0) * 64 + (b1 - 0x80), rest1)
        else none
      | _ => none
    else if b0 < 0xF0 then
      match rest with
      | b1 :: b2 :: rest2 =>
        if 0x80 ≤ b1 ∧ b1 < 0xC0 ∧ 0x80 ≤ b2 ∧ b2 < 0xC0 then
          let c := (b0 - 0xE0) * 4096 + (b1 - 0x80) * 64 + (b2 - 0x80)
          if c < 0x800 then none
          else if 0xD800 ≤ c ∧ c < 0xE000 then none
          else some (c, rest2)
        else none
      | _ => none
    else if b0 < 0xF5 then
      match rest with
      | b1 :: b2 :: b3 :: rest3 =>
        if 0x80 ≤ b1 ∧ b1 < 0xC0 ∧ 0x80 ≤ b2 ∧ b2 < 0xC0 ∧ 0x80 ≤ b3 ∧ b3 < 0xC0 then
          let c := (b0 - 0xF0) * 262144 + (b1 - 0x80) * 4096 + (b2 - 0x80) * 64 + (b3 - 0x80)
          if c < 0x10000 ∨ 0x10FFFF < c then none
          else some (c, rest3)
        else none
      | _ => none
    else none

/-- Fueled decoding loop; every step consumes at least one byte, so fuel
equal to the byte count suffices. -/
def utf8DecodeLoop : Nat → List Nat → Option (List Char)
  | _, [] => some []
  | 0, _ :: _ => none
  | fuel + 1, l =>
    match utf8DecodeOne l with
    | some (c, rest) => (utf8DecodeLoop fuel rest).map (fun cs => Char.ofNat c :: cs)
    | none => none

/-- String::from_utf8: the string a byte vector decodes to, when valid. -/
def utf8Decode (bytes : List Nat) : Option String :=
  (utf8DecodeLoop bytes.length bytes).map String.mk

/-! ### The two deserializers the registry client instantiates -/

/-- Field lookup in a parsed JSON object.  The 2014 serialize library
stores object members in a map built by successive insertion, so a later
duplicate key overwrites an earlier one. -/
def jsonLookup (fields : List (String × Json)) (key : String) : Option Json :=
  match fields with
  | [] => none
  | (k, v) :: rest =>
    match jsonLookup rest key with
    | some r => some r
    | none => if k = key then some v else none

/-- Decode each element of the errors array as struct ApiError, keeping
its detail string; any element of another shape fails the whole decode. -/
def decodeApiErrorElems : List Json → Option (List String)
  | [] => some []
  | Json.obj fields :: rest =>
    match jsonLookup fields "detail" with
    | some (Json.str s) => (decodeApiErrorElems rest).map (fun l => s :: l)
    | _ => none
  | _ => none

/-- json::decode for struct ApiErrorList followed by the projection the
source applies: errors.into_iter().map(|s| s.detail).collect().  Returns
the list of detail strings, in the order they appear in the body. -/
def decodeApiErrorList (body : String) : Option (List String) :=
  match parseJson body with
  | some (Json.obj fields) =>
    match jsonLookup fields "errors" with
    | some (Json.arr elems) => decodeApiErrorElems elems
    | _ => none
  | _ => none

/-- json::decode for struct R followed by the .ok projection. -/
def decodeR (body : String) : Option Bool :=
  match parseJson body with
  | some (Json.obj fields) =>
    match jsonLookup fields "ok" with
    | some (Json.bool b) => some b
    | _ => none
  | _ => none

/-! ### src/registry/lib.rs — the registry client -/

namespace Registry

/-- An HTTP response as the client sees it: status code and raw body
bytes (curl::http::Response, observed through get_code and move_body). -/
structure Response where
  code : Nat
  body : List Nat
deriving DecidableEq, Repr

/-- enum Error of the registry crate.  Transport error codes and I/O
errors are opaque; they are carried as numbers. -/
inductive Error where
  | CurlError (errCode : Nat)
  | NotOkResponse (resp : Response)
  | NonUtf8Body
  | ApiErrors (errs : List String)
  | Unauthorized
  | IoError (err : Nat)
deriving DecidableEq, Repr

/-- The body-interpretation half of fn handle (src/registry/lib.rs lines
168-179): String::from_utf8 on the moved body, then the ApiErrorList
decode attempt, whose success is an application-level error even under a
success status; only when it fails is the body the successful result. -/
def handle_body (bytes : List Nat) : Except Error String :=
  match utf8Decode bytes with
  | none => .error .NonUtf8Body
  | some body =>
    match decodeApiErrorList body with
    | some errs => .error (.ApiErrors errs)
    | none => .ok body

/-- fn handle (src/registry/lib.rs lines 158-180).  The transport result
is the input: a curl error code, or a response.  Status 0 and 200 fall
through to body interpretation, 403 is Unauthorized, anything else is
NotOkResponse carrying the response. -/
def handle (response : Except Nat Response) : Except Error String :=
  match response with
  | .error e => .error (.CurlError e)
  | .ok resp =>
    if resp.code = 0 then handle_body resp.body
    else if resp.code = 200 then handle_body resp.body
    else if resp.code = 403 then .error .Unauthorized
    else .error (.NotOkResponse resp)

/-- Result of running one registry operation: Ok(()), an Error value, or
a process panic (a failed assert! or a .unwrap() of an Err). -/
inductive Outcome where
  | ok
  | err (e : Error)
  | panic
deriving DecidableEq, Repr

/-- Shared tail of add_owners, remove_owners, yank and unyank:
assert!(json::decode::<R>(body.as_slice()).unwrap().ok); Ok(()).
A body that does not decode as struct R panics at .unwrap(); a decoded
ok == false panics at assert!. -/
def assertOkTail (body : String) : Outcome :=
  match decodeR body with
  | some b => if b then .ok else .panic
  | none => .panic

/-- fn add_owners (src/registry/lib.rs lines 75-81), as a function of the
transport result of its PUT request. -/
def add_owners (response : Except Nat Response) : Outcome :=
  match handle response with
  | .error e => .err e
  | .ok body => assertOkTail body

/-- fn remove_owners (src/registry/lib.rs lines 83-89), as a function of
the transport result of its DELETE request. -/
def remove_owners (response : Except Nat Response) : Outcome :=
  match handle response with
  | .error e => .err e
  | .ok body => assertOkTail body

/-- fn yank (src/registry/lib.rs lines 123-128), as a function of the
transport result of its DELETE request. -/
def yank (response : Except Nat Response) : Outcome :=
  match handle response with
  | .error e => .err e
  | .ok body => assertOkTail body

/-- fn unyank (src/registry/lib.rs lines 130-135), as a function of the
transport result of its PUT request. -/
def unyank (response : Except Nat Response) : Outcome :=
  match handle response with
  | .error e => .err e
  | .ok body => assertOkTail body

/-- The response-interpretation tail of fn publish (src/registry/lib.rs
lines 112-121): let _body = try!(response); Ok(()).  The successful body
is bound to a discarded variable and never inspected. -/
def publish (response : Except Nat Response) : Outcome :=
  match handle response with
  | .error e => .err e
  | .ok _body => .ok

/-- MemWriter::write_le_u32: the four little-endian bytes of a value
truncated to 32 bits (the source casts with as u32 before writing). -/
def writeLeU32 (n : Nat) : List Nat :=
  [n % 256, n / 256 % 256, n / 65536 % 256, n / 16777216 % 256]

/-- Read a little-endian u32 from the first four bytes of a byte list. -/
def readLeU32 (bytes : List Nat) : Option Nat :=
  match bytes with
  | b0 :: b1 :: b2 :: b3 :: _ => some (b0 + 256 * b1 + 65536 * b2 + 16777216 * b3)
  | _ => none

/-- The header MemWriter builds in fn publish (src/registry/lib.rs lines
100-106): le u32 of the JSON length, the JSON bytes, le u32 of the
tarball size. -/
def publishHeader (jsonBytes : List Nat) (tarballSize : Nat) : List Nat :=
  writeLeU32 jsonBytes.length ++ jsonBytes ++ writeLeU32 tarballSize

/-- The Content-Length fn publish declares (line 108): stat.size plus the
header length. -/
def publishContentLength (jsonBytes : List Nat) (tarballSize : Nat) : Nat :=
  tarballSize + (publishHeader jsonBytes tarballSize).length

end Registry

/-! ### src/cargo/lib.rs — the command pipeline -/

namespace Cargo

/-- Modelled from the spec: the CargoError trait object of the missing
cargo::util module, an error exposing a description, an optional detail
and an optional cause (spec section 3, CliError invariant, and section
4.2 step c). -/
inductive CargoError where
  | mk (description : String) (detail : Option String) (cause : Option CargoError)

/-- The description of an error. -/
def CargoError.description : CargoError → String
  | .mk d _ _ => d

/-- The optional detail of an error. -/
def CargoError.detail : CargoError → Option String
  | .mk _ dt _ => dt

/-- The optional cause of an error. -/
def CargoError.cause : CargoError → Option CargoError
  | .mk _ _ c => c

/-- Modelled from the spec: error.to_string() renders the error's human
message (spec section 3: CliError carries "message: string"). -/
def CargoError.to_string (e : CargoError) : String :=
  e.description

/-- Modelled from the spec: struct CliError of the missing cargo::util
module: { message, exit_code, cause, unknown } (spec section 3), with the
message and cause carried by the boxed error value. -/
structure CliError where
  error : CargoError
  exit_code : Nat
  unknown : Bool

/-- Modelled from the spec: CliError::new(msg, code) of the missing
cargo::util module builds a known (unknown = false) error from a plain
message with the given exit code. -/
def CliError.new (msg : String) (code : Nat) : CliError :=
  ⟨.mk msg none none, code, false⟩

/-- Modelled from the spec: CliError::from_error(e, code) of the missing
cargo::util module wraps a lower-level error, preserving its description,
with the given exit code (spec section 4.3: the conversion preserves the
rendered message). -/
def CliError.from_error (description : String) (code : Nat) : CliError :=
  ⟨.mk description none none, code, false⟩

/-- The outcome of the external docopt argument parser, out of scope per
the spec: a parse failure knows whether it is fatal (malformed input) or
non-fatal (help or version requested). -/
structure DocoptError where
  fatal : Bool
  message : String
deriving DecidableEq, Repr

/-- fn flags_from_args (src/cargo/lib.rs lines 222-240) as a function of
the outcomes of its two delegated steps: docopt_args on the raw argument
list, then decode on the resulting value map.  Each failure is mapped to
CliError::from_error with code 1 when fatal and 0 otherwise. -/
def flags_from_args {VM T : Type} (parse_result : Except DocoptError VM)
    (decode_fn : VM → Except DocoptError T) : Except CliError T :=
  match parse_result with
  | .error e => .error (CliError.from_error e.message (if e.fatal then 1 else 0))
  | .ok value_map =>
    match decode_fn value_map with
    | .error e => .error (CliError.from_error e.message (if e.fatal then 1 else 0))
    | .ok t => .ok t

/-- fn json_from_stdin (src/cargo/lib.rs lines 242-256) as a function of
the stdin read outcome (none when reading to a UTF-8 string failed) and
of the typed decode step for the expected payload. -/
def json_from_stdin {T : Type} (stdin : Option String)
    (decode : Json → Option T) : Except CliError T :=
  match stdin with
  | none => .error (CliError.new "Standard in did not exist or was not UTF-8" 1)
  | some input =>
    match parseJson input with
    | none => .error (CliError.new "Could not parse standard in as JSON" 1)
    | some j =>
      match decode j with
      | none => .error (CliError.new "Could not process standard in as input" 1)
      | some t => .ok t

/-- fn handle_cause (src/cargo/lib.rs lines 202-209): say "\nCaused by:"
and the two-space-indented description, then recurse into the cause while
one exists. -/
def handle_cause : CargoError → List String
  | .mk d _ none => ["\nCaused by:", "  " ++ d]
  | .mk d _ (some c) => ["\nCaused by:", "  " ++ d] ++ handle_cause c

/-- The hint line of handle_error (src/cargo/lib.rs line 182). -/
def verboseHint : String :=
  "\nTo learn more, run the command again with --verbose."

/-- First block of fn handle_error (src/cargo/lib.rs lines 174-178): the
unknown banner, or the error's message when non-empty. -/
def handle_error_head (err : CliError) : List String :=
  if err.unknown then ["An unknown error occurred"]
  else if 0 < err.error.to_string.length then [err.error.to_string]
  else []

/-- Second block of fn handle_error (lines 180-184): when a cause exists
or the error is unknown, shell.concise prints the hint; per spec section
4.2 the concise callback runs only when verbosity is OFF. -/
def handle_error_hint (err : CliError) (verbose : Bool) : List String :=
  if err.error.cause.isSome ∨ err.unknown then
    if verbose then [] else [verboseHint]
  else []

/-- Third block of fn handle_error (lines 186-197): shell.verbose runs
the callback only when verbosity is ON (spec section 4.2); it re-prints
the message of an unknown error, prints the detail when present, and
hands the cause to handle_cause. -/
def handle_error_tail (err : CliError) (verbose : Bool) : List String :=
  if verbose then
    (if err.unknown then [err.error.to_string] else []) ++
    (match err.error.detail with
     | some d => [d]
     | none => []) ++
    (match err.error.cause with
     | some c => handle_cause c
     | none => [])
  else []

/-- fn handle_error (src/cargo/lib.rs lines 169-200): the error-channel
lines printed, in order, and the exit status set by set_exit_status. -/
def handle_error (err : CliError) (verbose : Bool) : List String × Nat :=
  (handle_error_head err ++ handle_error_hint err verbose ++ handle_error_tail err verbose,
   err.exit_code)

/-- Observable outcome of one run of the pipeline: the lines written to
standard output, the lines written to the error channel, and the process
exit status (0 unless set_exit_status ran). -/
structure ProcessOutput where
  stdout_lines : List String
  stderr_lines : List String
  exit_code : Nat

/-- fn process_executed (src/cargo/lib.rs lines 139-151): an error goes
to handle_error (which sets the exit status), Ok(Some(v)) prints one line
holding the JSON encoding of v on standard output, Ok(None) prints
nothing; in the latter two cases the exit status keeps its default 0. -/
def process_executed {T : Type} (encode : T → String)
    (result : Except CliError (Option T)) (verbose : Bool) : ProcessOutput :=
  match result with
  | .error e => ⟨[], (handle_error e verbose).1, (handle_error e verbose).2⟩
  | .ok (some encodable) => ⟨[encode encodable], [], 0⟩
  | .ok none => ⟨[], [], 0⟩

/-- The chain of descriptions reachable from an error: its own, then
those of its causes, immediate cause first. -/
def causeDescriptions : CargoError → List String
  | .mk d _ none => [d]
  | .mk d _ (some c) => d :: causeDescriptions c

end Cargo

/-! ### Claims about the registry client -/

/-- C1: for every HTTP response produced by any RegistryClient operation,
if the transport succeeds, a status code in {0, 200} takes the success
path (the body-interpretation half of handle), status 403 yields the
Unauthorized error regardless of the response body, and any other status
yields UnexpectedStatus (NotOkResponse) carrying the full response. -/
theorem C1_handle_status_partition (resp : Registry.Response) :
    ((resp.code = 0 ∨ resp.code = 200) →
      Registry.handle (.ok resp) = Registry.handle_body resp.body) ∧
    (resp.code = 403 → Registry.handle (.ok resp) = .error .Unauthorized) ∧
    (resp.code ≠ 0 → resp.code ≠ 200 → resp.code ≠ 403 →
      Registry.handle (.ok resp) = .error (.NotOkResponse resp)) := by
  refine ⟨fun h => ?_, fun h => ?_, fun h1 h2 h3 => ?_⟩
  · rcases h with h | h <;> simp [Registry.handle, h]
  · simp [Registry.handle, h]
  · simp [Registry.handle, h1, h2, h3]

/-- C1 witness: a 403 response is Unauthorized whatever its body, a 200
response goes to body interpretation, and a 500 response is carried whole
in NotOkResponse. -/
theorem C1_handle_status_partition_witness :
    Registry.handle (.ok ⟨403, [104, 105]⟩) = .error .Unauthorized ∧
    Registry.handle (.ok ⟨200, [104]⟩) = Registry.handle_body [104] ∧
    Registry.handle (.ok ⟨500, [104]⟩) = .error (.NotOkResponse ⟨500, [104]⟩) :=
  ⟨(C1_handle_status_partition ⟨403, [104, 105]⟩).2.1 rfl,
   (C1_handle_status_partition ⟨200, [104]⟩).1 (Or.inr rfl),
   (C1_handle_status_partition ⟨500, [104]⟩).2.2 (by decide) (by decide) (by decide)⟩

/-- C2: for every response with a successful status ({0, 200}) whose
UTF-8 body decodes as the structured error envelope, every operation
returns ApiErrors with one entry per detail field, in response order
(decodeApiErrorList returns exactly those details in order), even though
the status indicated success; only when that decode fails is the raw body
the successful result. -/
theorem C2_success_body_envelope (resp : Registry.Response) (body : String)
    (hcode : resp.code = 0 ∨ resp.code = 200)
    (hutf : utf8Decode resp.body = some body) :
    (∀ ds, decodeApiErrorList body = some ds →
      Registry.handle (.ok resp) = .error (.ApiErrors ds) ∧
      Registry.add_owners (.ok resp) = .err (.ApiErrors ds) ∧
      Registry.remove_owners (.ok resp) = .err (.ApiErrors ds) ∧
      Registry.yank (.ok resp) = .err (.ApiErrors ds) ∧
      Registry.unyank (.ok resp) = .err (.ApiErrors ds) ∧
      Registry.publish (.ok resp) = .err (.ApiErrors ds)) ∧
    (decodeApiErrorList body = none → Registry.handle (.ok resp) = .ok body) := by
  have hb : Registry.handle (.ok resp) = Registry.handle_body resp.body := by
    rcases hcode with h | h <;> simp [Registry.handle, h]
  constructor
  · intro ds hds
    have he : Registry.handle (.ok resp) = .error (.ApiErrors ds) := by
      rw [hb]; simp [Registry.handle_body, hutf, hds]
    exact ⟨he, by simp [Registry.add_owners, he], by simp [Registry.remove_owners, he],
      by simp [Registry.yank, he], by simp [Registry.unyank, he],
      by simp [Registry.publish, he]⟩
  · intro hnone
    rw [hb]; simp [Registry.handle_body, hutf, hnone]

/-- C2 witness: a 200 response whose body is the two-error envelope turns
into ApiErrors with the two details in order, and a 200 body that is not
the envelope is returned as the successful body. -/
theorem C2_success_body_envelope_witness :
    Registry.handle
        (.ok ⟨200, strBytes "\x7b\"errors\":[\x7b\"detail\":\"already an owner\"\x7d,\x7b\"detail\":\"second\"\x7d]\x7d"⟩) =
      .error (.ApiErrors ["already an owner", "second"]) ∧
    Registry.add_owners
        (.ok ⟨200, strBytes "\x7b\"errors\":[\x7b\"detail\":\"already an owner\"\x7d,\x7b\"detail\":\"second\"\x7d]\x7d"⟩) =
      .err (.ApiErrors ["already an owner", "second"]) ∧
    Registry.handle (.ok ⟨200, strBytes "\x7b\"ok\":true\x7d"⟩) = .ok "\x7b\"ok\":true\x7d" :=
  ⟨((C2_success_body_envelope
      ⟨200, strBytes "\x7b\"errors\":[\x7b\"detail\":\"already an owner\"\x7d,\x7b\"detail\":\"second\"\x7d]\x7d"⟩
      "\x7b\"errors\":[\x7b\"detail\":\"already an owner\"\x7d,\x7b\"detail\":\"second\"\x7d]\x7d"
      (Or.inr rfl) rfl).1 ["already an owner", "second"] rfl).1,
   ((C2_success_body_envelope
      ⟨200, strBytes "\x7b\"errors\":[\x7b\"detail\":\"already an owner\"\x7d,\x7b\"detail\":\"second\"\x7d]\x7d"⟩
      "\x7b\"errors\":[\x7b\"detail\":\"already an owner\"\x7d,\x7b\"detail\":\"second\"\x7d]\x7d"
      (Or.inr rfl) rfl).1 ["already an owner", "second"] rfl).2.1,
   (C2_success_body_envelope ⟨200, strBytes "\x7b\"ok\":true\x7d"⟩ "\x7b\"ok\":true\x7d"
      (Or.inr rfl) rfl).2 rfl⟩

/-- C3: for every publish(metadata, archivePath) call where the
JSON-encoded metadata has byte length L1 and the archive has byte length
L2, the produced header is exactly 4 + L1 + 4 bytes, its first 4 bytes
decode as a little-endian u32 equal to L1, the bytes at offset L1 + 4
decode little-endian to L2, and the declared Content-Length equals the
header size plus the archive size.  The lengths are below 2^32, matching
the u32 casts the source performs. -/
theorem C3_publish_framing (jsonBytes : List Nat) (tarballSize : Nat)
    (h1 : jsonBytes.length < 4294967296) (h2 : tarballSize < 4294967296) :
    (Registry.publishHeader jsonBytes tarballSize).length = 4 + jsonBytes.length + 4 ∧
    Registry.readLeU32 (Registry.publishHeader jsonBytes tarballSize) =
      some jsonBytes.length ∧
    Registry.readLeU32 ((Registry.publishHeader jsonBytes tarballSize).drop
      (jsonBytes.length + 4)) = some tarballSize ∧
    Registry.publishContentLength jsonBytes tarballSize =
      (Registry.publishHeader jsonBytes tarballSize).length + tarballSize := by
  refine ⟨?_, ?_, ?_, ?_⟩
  · simp [Registry.publishHeader, Registry.writeLeU32]
    omega
  · simp only [Registry.publishHeader, Registry.writeLeU32, List.cons_append,
      List.nil_append, Registry.readLeU32]
    congr 1
    omega
  · have hlen : jsonBytes.length + 4 =
        (Registry.writeLeU32 jsonBytes.length ++ jsonBytes).length := by
      simp [Registry.writeLeU32]
    rw [show Registry.publishHeader jsonBytes tarballSize =
        (Registry.writeLeU32 jsonBytes.length ++ jsonBytes) ++
          Registry.writeLeU32 tarballSize from by
      simp [Registry.publishHeader], hlen, List.drop_left]
    simp only [Registry.writeLeU32, Registry.readLeU32]
    congr 1
    omega
  · simp [Registry.publishContentLength]
    omega

/-- C3 witness: framing of a concrete 14-byte metadata document with a
300-byte archive. -/
theorem C3_publish_framing_witness :
    (Registry.publishHeader (strBytes "\x7b\"name\":\"a\"\x7d") 300).length =
      4 + (strBytes "\x7b\"name\":\"a\"\x7d").length + 4 ∧
    Registry.readLeU32 (Registry.publishHeader (strBytes "\x7b\"name\":\"a\"\x7d") 300) =
      some (strBytes "\x7b\"name\":\"a\"\x7d").length ∧
    Registry.readLeU32 ((Registry.publishHeader (strBytes "\x7b\"name\":\"a\"\x7d") 300).drop
      ((strBytes "\x7b\"name\":\"a\"\x7d").length + 4)) = some 300 ∧
    Registry.publishContentLength (strBytes "\x7b\"name\":\"a\"\x7d") 300 =
      (Registry.publishHeader (strBytes "\x7b\"name\":\"a\"\x7d") 300).length + 300 :=
  C3_publish_framing (strBytes "\x7b\"name\":\"a\"\x7d") 300 (by decide) (by decide)

/-- C9: for every add_owners, remove_owners, yank or unyank call whose
response passes handle with a successful body (successful status, UTF-8
body, not the error envelope), the operation is Ok(()) exactly when the
body decodes as struct R with ok = true; a body that does not decode as
that shape, or that decodes with ok = false, makes the process panic
rather than return an Error value. -/
theorem C9_ok_assertion (response : Except Nat Registry.Response) (body : String)
    (hok : Registry.handle response = .ok body) :
    (Registry.add_owners response = Registry.assertOkTail body ∧
     Registry.remove_owners response = Registry.assertOkTail body ∧
     Registry.yank response = Registry.assertOkTail body ∧
     Registry.unyank response = Registry.assertOkTail body) ∧
    (Registry.assertOkTail body = .ok ↔ decodeR body = some true) ∧
    ((decodeR body = none ∨ decodeR body = some false) →
      Registry.assertOkTail body = .panic) := by
  refine ⟨⟨?_, ?_, ?_, ?_⟩, ?_, ?_⟩
  · simp [Registry.add_owners, hok]
  · simp [Registry.remove_owners, hok]
  · simp [Registry.yank, hok]
  · simp [Registry.unyank, hok]
  · cases hd : decodeR body with
    | none => simp [Registry.assertOkTail, hd]
    | some b => cases b <;> simp [Registry.assertOkTail, hd]
  · rintro (hd | hd) <;> simp [Registry.assertOkTail, hd]

/-- C9 witness: a 200 response with body ok = true completes add_owners,
and one with body ok = false panics in yank. -/
theorem C9_ok_assertion_witness :
    Registry.add_owners (.ok ⟨200, strBytes "\x7b\"ok\":true\x7d"⟩) = .ok ∧
    Registry.yank (.ok ⟨200, strBytes "\x7b\"ok\":false\x7d"⟩) = .panic := by
  have h1 := C9_ok_assertion (.ok ⟨200, strBytes "\x7b\"ok\":true\x7d"⟩)
    "\x7b\"ok\":true\x7d" rfl
  have h2 := C9_ok_assertion (.ok ⟨200, strBytes "\x7b\"ok\":false\x7d"⟩)
    "\x7b\"ok\":false\x7d" rfl
  refine ⟨?_, ?_⟩
  · rw [h1.1.1]
    exact h1.2.1.mpr rfl
  · rw [h2.1.2.2.1]
    exact h2.2.2 (Or.inr rfl)

/-- C10: for every publish call whose response passes handle with a
successful body (successful status, UTF-8 body, not the error envelope),
publish returns Ok(()) and discards the body: no ok = true check is
performed, so the result is success whatever that body contains. -/
theorem C10_publish_discards_body (response : Except Nat Registry.Response)
    (body : String) (hok : Registry.handle response = .ok body) :
    Registry.publish response = .ok := by
  simp [Registry.publish, hok]

/-- C10 witness: publish succeeds even on a body with ok = false, the
very body that makes the owner and yank operations panic. -/
theorem C10_publish_discards_body_witness :
    Registry.publish (.ok ⟨200, strBytes "\x7b\"ok\":false\x7d"⟩) = .ok :=
  C10_publish_discards_body (.ok ⟨200, strBytes "\x7b\"ok\":false\x7d"⟩)
    "\x7b\"ok\":false\x7d" rfl

/-! ### Claims about the command pipeline -/

/-- C4 counterexample: at each of the three failure stages the message
the code produces starts with a capital letter, unlike the message the
claim quotes. -/
theorem C4_stdin_messages_counterexample :
    (match Cargo.json_from_stdin (T := Json) none some with
     | .error ce => ce.error.to_string
     | .ok _ => "") = "Standard in did not exist or was not UTF-8" ∧
    "Standard in did not exist or was not UTF-8" ≠
      "standard in did not exist or was not UTF-8" ∧
    (match Cargo.json_from_stdin (T := Json) (some "]") some with
     | .error ce => ce.error.to_string
     | .ok _ => "") = "Could not parse standard in as JSON" ∧
    "Could not parse standard in as JSON" ≠ "could not parse standard in as JSON" ∧
    (match Cargo.json_from_stdin (some "0") (fun _ => (none : Option Json)) with
     | .error ce => ce.error.to_string
     | .ok _ => "") = "Could not process standard in as input" ∧
    "Could not process standard in as input" ≠
      "could not process standard in as input" :=
  ⟨rfl, by decide, rfl, by decide, rfl, by decide⟩

/-- C4 (amended: the messages are capitalized as in the source): a failed
stdin read yields a CliError with exit code 1 and message "Standard in
did not exist or was not UTF-8"; a JSON parse failure yields exit code 1
and message "Could not parse standard in as JSON"; a typed decode failure
yields exit code 1 and message "Could not process standard in as
input". -/
theorem C4_stdin_stage_errors {T : Type} (decode : Json → Option T) :
    Cargo.json_from_stdin none decode =
      .error (Cargo.CliError.new "Standard in did not exist or was not UTF-8" 1) ∧
    (∀ s, parseJson s = none → Cargo.json_from_stdin (some s) decode =
      .error (Cargo.CliError.new "Could not parse standard in as JSON" 1)) ∧
    (∀ s j, parseJson s = some j → decode j = none →
      Cargo.json_from_stdin (some s) decode =
        .error (Cargo.CliError.new "Could not process standard in as input" 1)) ∧
    (∀ msg, (Cargo.CliError.new msg 1).exit_code = 1) := by
  refine ⟨rfl, fun s hs => ?_, fun s j hj hd => ?_, fun msg => rfl⟩
  · simp [Cargo.json_from_stdin, hs]
  · simp [Cargo.json_from_stdin, hj, hd]

/-- C4 witness: the malformed document "]" fails the JSON parse stage and
the well-formed document "0" fails the typed decode stage when the
payload type accepts nothing. -/
theorem C4_stdin_stage_errors_witness :
    Cargo.json_from_stdin (T := Json) (some "]") some =
      .error (Cargo.CliError.new "Could not parse standard in as JSON" 1) ∧
    Cargo.json_from_stdin (some "0") (fun _ => (none : Option Json)) =
      .error (Cargo.CliError.new "Could not process standard in as input" 1) :=
  ⟨(C4_stdin_stage_errors some).2.1 "]" rfl,
   (C4_stdin_stage_errors (fun _ => (none : Option Json))).2.2.1 "0" (Json.num "0") rfl rfl⟩

/-- C5: every argument-parse failure in the pipeline, whether in the raw
docopt parse or in the decode of the resulting value map, yields a
CliError whose exit code is 1 when the failure is fatal and 0 when it is
non-fatal. -/
theorem C5_parse_failure_exit_code {VM T : Type}
    (parse_result : Except Cargo.DocoptError VM)
    (decode_fn : VM → Except Cargo.DocoptError T) (ce : Cargo.CliError)
    (herr : Cargo.flags_from_args parse_result decode_fn = .error ce) :
    ∃ e : Cargo.DocoptError,
      (parse_result = .error e ∨
        ∃ vm, parse_result = .ok vm ∧ decode_fn vm = .error e) ∧
      ce.exit_code = (if e.fatal then 1 else 0) := by
  cases parse_result with
  | error e =>
    refine ⟨e, Or.inl rfl, ?_⟩
    simp only [Cargo.flags_from_args] at herr
    cases herr
    rfl
  | ok vm =>
    cases hd : decode_fn vm with
    | error e =>
      refine ⟨e, Or.inr ⟨vm, rfl, hd⟩, ?_⟩
      simp only [Cargo.flags_from_args, hd] at herr
      cases herr
      rfl
    | ok t =>
      simp [Cargo.flags_from_args, hd] at herr

/-- C5 witness: a non-fatal failure (help requested) carries exit code 0;
a fatal decode failure carries exit code 1. -/
theorem C5_parse_failure_exit_code_witness :
    (∃ e : Cargo.DocoptError,
      ((Except.error ⟨false, "help requested"⟩ : Except Cargo.DocoptError Unit) =
          .error e ∨
        ∃ vm : Unit, (Except.error ⟨false, "help requested"⟩ :
            Except Cargo.DocoptError Unit) = .ok vm ∧
          (fun _ : Unit => (Except.ok () : Except Cargo.DocoptError Unit)) vm = .error e) ∧
      (Cargo.CliError.from_error "help requested" 0).exit_code =
        (if e.fatal then 1 else 0)) ∧
    (∃ e : Cargo.DocoptError,
      ((Except.ok () : Except Cargo.DocoptError Unit) = .error e ∨
        ∃ vm : Unit, (Except.ok () : Except Cargo.DocoptError Unit) = .ok vm ∧
          (fun _ : Unit => (Except.error ⟨true, "bad flag"⟩ :
            Except Cargo.DocoptError Unit)) vm = .error e) ∧
      (Cargo.CliError.from_error "bad flag" 1).exit_code = (if e.fatal then 1 else 0)) :=
  ⟨C5_parse_failure_exit_code (Except.error ⟨false, "help requested"⟩)
      (fun _ => Except.ok ()) (Cargo.CliError.from_error "help requested" 0) rfl,
   C5_parse_failure_exit_code (Except.ok ())
      (fun _ => Except.error ⟨true, "bad flag"⟩)
      (Cargo.CliError.from_error "bad flag" 1) rfl⟩

/-- C6: an error outcome sets the exit status to the error's exit code
and writes no standard-output line; Ok(None) is silent success with exit
status 0 and zero standard-output lines; a standard-output line exists
only on Ok(Some(v)), and then it is exactly the encoding of v. -/
theorem C6_process_executed_output {T : Type} (encode : T → String) (verbose : Bool) :
    (∀ e : Cargo.CliError,
      (Cargo.process_executed encode (.error e) verbose).stdout_lines = [] ∧
      (Cargo.process_executed encode (.error e) verbose).exit_code = e.exit_code) ∧
    ((Cargo.process_executed encode (.ok none) verbose).stdout_lines = [] ∧
      (Cargo.process_executed encode (.ok none) verbose).exit_code = 0) ∧
    (∀ result : Except Cargo.CliError (Option T),
      (Cargo.process_executed encode result verbose).stdout_lines ≠ [] →
      ∃ v, result = .ok (some v) ∧
        (Cargo.process_executed encode result verbose).stdout_lines = [encode v]) := by
  refine ⟨fun e => ⟨rfl, rfl⟩, ⟨rfl, rfl⟩, fun result hne => ?_⟩
  cases result with
  | error e => exact absurd rfl hne
  | ok o =>
    cases o with
    | none => exact absurd rfl hne
    | some v => exact ⟨v, rfl, rfl⟩

/-- C6 witness: a malformed-stdin error gives exit code 1 and no output
line; silent success gives exit code 0 and no output line; a present
result is printed as its encoding. -/
theorem C6_process_executed_output_witness :
    ((Cargo.process_executed (fun s : String => s)
        (.error (Cargo.CliError.new "Could not parse standard in as JSON" 1))
        false).stdout_lines = [] ∧
      (Cargo.process_executed (fun s : String => s)
        (.error (Cargo.CliError.new "Could not parse standard in as JSON" 1))
        false).exit_code = 1) ∧
    ((Cargo.process_executed (fun s : String => s) (.ok none) false).stdout_lines = [] ∧
      (Cargo.process_executed (fun s : String => s) (.ok none) false).exit_code = 0) ∧
    (∃ v, (Except.ok (some "\"done\"") : Except Cargo.CliError (Option String)) =
        .ok (some v) ∧
      (Cargo.process_executed (fun s : String => s) (.ok (some "\"done\""))
        false).stdout_lines = [(fun s : String => s) v]) :=
  ⟨(C6_process_executed_output (fun s : String => s) false).1
      (Cargo.CliError.new "Could not parse standard in as JSON" 1),
   (C6_process_executed_output (fun s : String => s) false).2.1,
   (C6_process_executed_output (fun s : String => s) false).2.2
      (.ok (some "\"done\"")) (by decide)⟩

/-! ### Helper lemmas for the error-reporting claims -/

/-- The block handle_cause prints for a list of descriptions: one
"\nCaused by:" line and one indented description per entry, in order. -/
def causeBlock : List String → List String
  | [] => []
  | d :: rest => "\nCaused by:" :: ("  " ++ d) :: causeBlock rest

/-- A two-space-indented line never equals a string that starts with a
newline. -/
theorem indent_ne_newline_head (d t : String) (ht : t.data.head? = some '\n') :
    "  " ++ d ≠ t := by
  intro h
  have h2 : ("  " ++ d).data.head? = some ' ' := by
    rw [String.data_append]; rfl
  rw [h, ht] at h2
  exact absurd (Option.some.inj h2) (by decide)

/-- handle_cause emits exactly the cause block of the description
chain. -/
theorem handle_cause_eq_causeBlock : ∀ c : Cargo.CargoError,
    Cargo.handle_cause c = causeBlock (Cargo.causeDescriptions c)
  | .mk d dt none => rfl
  | .mk d dt (some c2) => by
    simp only [Cargo.handle_cause, Cargo.causeDescriptions, causeBlock,
      handle_cause_eq_causeBlock c2]
    rfl

/-- The cause block of n descriptions holds exactly n "\nCaused by:"
lines: the indented lines cannot collide with that marker. -/
theorem count_causeBlock : ∀ ds : List String,
    (causeBlock ds).count "\nCaused by:" = ds.length
  | [] => rfl
  | d :: rest => by
    have hne : ("  " ++ d) ≠ "\nCaused by:" := indent_ne_newline_head d _ rfl
    simp [causeBlock, List.count_cons, count_causeBlock rest, hne]

/-- The verbose-mode hint line never occurs among the lines handle_cause
prints. -/
theorem hint_notin_handle_cause : ∀ c : Cargo.CargoError,
    Cargo.verboseHint ∉ Cargo.handle_cause c
  | .mk d dt none => by
    intro hm
    simp only [Cargo.handle_cause, List.mem_cons, List.not_mem_nil, or_false] at hm
    rcases hm with h | h
    · exact absurd h (by decide)
    · exact indent_ne_newline_head d Cargo.verboseHint rfl h.symm
  | .mk d dt (some c2) => by
    intro hm
    simp only [Cargo.handle_cause, List.cons_append, List.nil_append,
      List.mem_cons] at hm
    rcases hm with h | h | h
    · exact absurd h (by decide)
    · exact indent_ne_newline_head d Cargo.verboseHint rfl h.symm
    · exact hint_notin_handle_cause c2 h

/-- A string is non-empty exactly when its length is positive. -/
theorem string_length_pos_iff (s : String) : 0 < s.length ↔ s ≠ "" := by
  constructor
  · intro h hs
    rw [hs] at h
    simp at h
  · intro h
    rcases Nat.eq_zero_or_pos s.length with hz | hp
    · exfalso
      apply h
      apply String.ext
      have hd : s.data.length = 0 := hz
      simpa using List.length_eq_zero.mp hd
    · exact hp

/-- C7: reporting an error in verbose mode ends with the cause block of
the cause chain: one "\nCaused by:" line followed by that cause's
description per chain node, ordered from the immediate cause to the root,
stopping at the first cause-free node; the number of "\nCaused by:" lines
equals the chain length. -/
theorem C7_verbose_cause_chain (err : Cargo.CliError) (c : Cargo.CargoError)
    (hcause : err.error.cause = some c) :
    (∃ pre, (Cargo.handle_error err true).1 = pre ++ Cargo.handle_cause c) ∧
    Cargo.handle_cause c = causeBlock (Cargo.causeDescriptions c) ∧
    (Cargo.handle_cause c).count "\nCaused by:" =
      (Cargo.causeDescriptions c).length := by
  refine ⟨⟨Cargo.handle_error_head err ++ Cargo.handle_error_hint err true ++
      ((if err.unknown then [err.error.to_string] else []) ++
       (match err.error.detail with | some d => [d] | none => [])), ?_⟩,
    handle_cause_eq_causeBlock c, ?_⟩
  · simp [Cargo.handle_error, Cargo.handle_error_tail, hcause]
  · rw [handle_cause_eq_causeBlock c]
    exact count_causeBlock _

/-- A three-level cause chain, used to witness C7. -/
def chain3 : Cargo.CargoError :=
  .mk "mid" none (some (.mk "low" none (some (.mk "root" none none))))

/-- A CliError whose error carries the three-level chain. -/
def errChain3 : Cargo.CliError :=
  ⟨.mk "top failure" none (some chain3), 101, false⟩

/-- C7 witness: with the three-level chain the verbose report ends in the
cause block for "mid", "low", "root", and it holds exactly three
"\nCaused by:" lines. -/
theorem C7_verbose_cause_chain_witness :
    (∃ pre, (Cargo.handle_error errChain3 true).1 = pre ++ Cargo.handle_cause chain3) ∧
    Cargo.handle_cause chain3 = causeBlock (Cargo.causeDescriptions chain3) ∧
    (Cargo.handle_cause chain3).count "\nCaused by:" =
      (Cargo.causeDescriptions chain3).length :=
  C7_verbose_cause_chain errChain3 chain3 rfl

/-- C8 counterexample: the unknown-error banner the code prints carries
no trailing period, so the line the claim quotes is never printed. -/
theorem C8_unknown_banner_counterexample :
    (Cargo.handle_error ⟨.mk "boom" none none, 1, true⟩ false).1.head? =
      some "An unknown error occurred" ∧
    "An unknown error occurred." ∉
      (Cargo.handle_error ⟨.mk "boom" none none, 1, true⟩ false).1 := by
  constructor
  · rfl
  · decide

/-- The hint line never occurs in the head block, provided the message
itself is not that line. -/
theorem hint_notin_head (err : Cargo.CliError)
    (hmsg : err.error.to_string ≠ Cargo.verboseHint) :
    Cargo.verboseHint ∉ Cargo.handle_error_head err := by
  simp only [Cargo.handle_error_head]
  split
  · simp only [List.mem_singleton]
    intro h
    exact absurd h (by decide)
  · split
    · simp only [List.mem_singleton]
      intro h
      exact hmsg h.symm
    · simp

/-- The hint line never occurs in the verbose tail, provided neither the
message nor the detail is that line. -/
theorem hint_notin_tail (err : Cargo.CliError) (verbose : Bool)
    (hmsg : err.error.to_string ≠ Cargo.verboseHint)
    (hdetail : err.error.detail ≠ some Cargo.verboseHint) :
    Cargo.verboseHint ∉ Cargo.handle_error_tail err verbose := by
  simp only [Cargo.handle_error_tail]
  split
  · intro hm
    simp only [List.mem_append] at hm
    rcases hm with (h1 | h2) | h3
    · revert h1
      split
      · simp only [List.mem_singleton]
        intro h
        exact hmsg h.symm
      · simp
    · rcases hd : err.error.detail with _ | d
      · rw [hd] at h2
        simp at h2
      · rw [hd] at h2
        simp only [List.mem_singleton] at h2
        exact hdetail (by rw [hd, ← h2])
    · rcases hc : err.error.cause with _ | c
      · rw [hc] at h3
        simp at h3
      · rw [hc] at h3
        exact hint_notin_handle_cause c h3
  · simp

/-- The hint line occurs in the hint block exactly when a cause exists or
the error is unknown, and verbosity is off. -/
theorem hint_in_hint_block_iff (err : Cargo.CliError) (verbose : Bool) :
    Cargo.verboseHint ∈ Cargo.handle_error_hint err verbose ↔
      ((err.error.cause.isSome = true ∨ err.unknown = true) ∧ verbose = false) := by
  simp only [Cargo.handle_error_hint]
  split
  · rename_i hcond
    split
    · rename_i hv
      simp [hv]
    · rename_i hv
      simp only [List.mem_singleton]
      have hvf : verbose = false := by
        cases verbose
        · rfl
        · exact absurd rfl hv
      simp [hvf, hcond]
  · rename_i hcond
    simp only [List.not_mem_nil, false_iff]
    intro hand
    exact hcond hand.1

/-- C8 (amended: the unknown banner carries no trailing period): if the
error is flagged unknown the line "An unknown error occurred" is printed
first; otherwise the head block is the message exactly when non-empty,
and a non-empty message is the first line printed; and the verbose-rerun
hint is printed if and only if the error carries a cause or is unknown,
and verbosity is off.  The two hypotheses rule out a message or detail
that is itself the hint line. -/
theorem C8_error_report_protocol (err : Cargo.CliError) (verbose : Bool)
    (hmsg : err.error.to_string ≠ Cargo.verboseHint)
    (hdetail : err.error.detail ≠ some Cargo.verboseHint) :
    (err.unknown = true →
      (Cargo.handle_error err verbose).1.head? = some "An unknown error occurred") ∧
    (err.unknown = false → Cargo.handle_error_head err =
      (if err.error.to_string = "" then [] else [err.error.to_string])) ∧
    (err.unknown = false → err.error.to_string ≠ "" →
      (Cargo.handle_error err verbose).1.head? = some err.error.to_string) ∧
    (Cargo.verboseHint ∈ (Cargo.handle_error err verbose).1 ↔
      ((err.error.cause.isSome = true ∨ err.unknown = true) ∧ verbose = false)) := by
  have hhead : err.unknown = false → Cargo.handle_error_head err =
      (if err.error.to_string = "" then [] else [err.error.to_string]) := by
    intro hu
    simp only [Cargo.handle_error_head, hu]
    by_cases he : err.error.to_string = ""
    · rw [he]
      simp
    · have hp : 0 < err.error.to_string.length := (string_length_pos_iff _).mpr he
      simp [he, hp]
  refine ⟨fun hu => ?_, hhead, fun hu he => ?_, ?_⟩
  · simp [Cargo.handle_error, Cargo.handle_error_head, hu]
  · have h1 := hhead hu
    rw [if_neg he] at h1
    simp [Cargo.handle_error, h1]
  · constructor
    · intro hm
      simp only [Cargo.handle_error, List.append_assoc, List.mem_append] at hm
      rcases hm with h | h | h
      · exact absurd h (hint_notin_head err hmsg)
      · exact (hint_in_hint_block_iff err verbose).mp h
      · exact absurd h (hint_notin_tail err verbose hmsg hdetail)
    · intro hand
      have hm := (hint_in_hint_block_iff err verbose).mpr hand
      simp only [Cargo.handle_error, List.append_assoc, List.mem_append]
      exact Or.inr (Or.inl hm)

/-- C8 witness: a known error with a cause, reported without verbosity,
leads with its message and includes the rerun hint; the iff also shows
the hint disappears under verbosity for the same error. -/
theorem C8_error_report_protocol_witness :
    (Cargo.handle_error ⟨.mk "boom" none (some (.mk "why" none none)), 1, false⟩
        false).1.head? = some "boom" ∧
    Cargo.verboseHint ∈
      (Cargo.handle_error ⟨.mk "boom" none (some (.mk "why" none none)), 1, false⟩
        false).1 ∧
    Cargo.verboseHint ∉
      (Cargo.handle_error ⟨.mk "boom" none (some (.mk "why" none none)), 1, false⟩
        true).1 :=
  ⟨(C8_error_report_protocol ⟨.mk "boom" none (some (.mk "why" none none)), 1, false⟩
      false (by decide) (by decide)).2.2.1 rfl (by decide),
   ((C8_error_report_protocol ⟨.mk "boom" none (some (.mk "why" none none)), 1, false⟩
      false (by decide) (by decide)).2.2.2).mpr ⟨Or.inl rfl, rfl⟩,
   fun hm => by
     have h := ((C8_error_report_protocol
        ⟨.mk "boom" none (some (.mk "why" none none)), 1, false⟩
        true (by decide) (by decide)).2.2.2).mp hm
     exact absurd h.2 (by decide)⟩
